import Mathlib

/-
Shallow embedding of the task-manager core:

  * the Redux slice src/store/taskSlice.ts (task CRUD, sorting, persistence
    synchronisation), and
  * the storage utilities src/utils/storage.ts (isValidTask, loadTasks,
    exportTasks, importTasks).

Modelling conventions, stated once here:

  * Timestamps and ids are the strings that the code produces.  Each reducer
    receives the results of its calls to Date.now / new Date().toISOString()
    / Math.random-based id generation as explicit parameters (a reducer body
    makes its fresh id and its timestamp from those calls; we pass the
    resulting strings in).
  * localStorage writes are summarised by a SaveOutcome parameter: the
    saveTasks helper returned true, returned false, or threw.
  * new Date(s).getTime() on the ISO-8601 date/timestamp strings the app
    stores is order-isomorphic to reading the digits of s left to right as a
    number, so comparisons of getTime values are modelled by the dateTime
    function below.  String.localeCompare is modelled by code-point order
    (sign of the comparison).
  * JSON.stringify / JSON.parse are modelled at the level of JSON values:
    a Json inductive stands for the parse result, and parse (stringify v)
    is taken to be v.  A value of type Except Unit Json stands for a
    JSON.parse attempt that may throw.
-/

namespace TaskManager

/-- The TS union type priority, one of low / medium / high. -/
inductive Priority where
  | low
  | medium
  | high
deriving DecidableEq, Repr

/-- The Task record of src/types/task.ts: string id/title/description,
boolean completed, priority, nullable dueDate string, ISO timestamp strings. -/
structure Task where
  id : String
  title : String
  description : String
  completed : Bool
  priority : Priority
  dueDate : Option String
  createdAt : String
  updatedAt : String
deriving DecidableEq, Repr

/-- The TaskFilter union type: all / active / completed. -/
inductive TaskFilter where
  | all
  | active
  | completed
deriving DecidableEq, Repr

/-- The TaskState interface of taskSlice.ts. -/
structure TaskState where
  tasks : List Task
  filter : TaskFilter
  searchQuery : String
  isLoading : Bool
  error : Option String
  lastSaved : Option String
  autoSave : Bool
deriving DecidableEq, Repr

/-- Outcome of one call to the saveTasks storage helper: it returned true,
returned false, or threw an exception. -/
inductive SaveOutcome where
  | ok
  | fail
  | exn
deriving DecidableEq, Repr

/-- Payload of addTask: Omit of Task minus id, createdAt, updatedAt. -/
structure TaskPayload where
  title : String
  description : String
  completed : Bool
  priority : Priority
  dueDate : Option String
deriving DecidableEq, Repr

/-- Partial of Task: each field optionally present, as in the updateTask
payload.  A field that is absent from the JS object is none here. -/
structure TaskUpdates where
  id : Option String := none
  title : Option String := none
  description : Option String := none
  completed : Option Bool := none
  priority : Option Priority := none
  dueDate : Option (Option String) := none
  createdAt : Option String := none
  updatedAt : Option String := none
deriving DecidableEq, Repr

/-- The task object literal built by addTask / addMultipleTasks: payload
fields spread first, then the generated id and the two timestamps. -/
def mkTask (p : TaskPayload) (genId now : String) : Task :=
  { id := genId
    title := p.title
    description := p.description
    completed := p.completed
    priority := p.priority
    dueDate := p.dueDate
    createdAt := now
    updatedAt := now }

/-- The helper _saveTasksToStorageInternal of taskSlice.ts.  It runs only
when autoSave is set; on a successful write it sets lastSaved, on a failed
or throwing write it sets the error message.  Note that on success it does
not touch the error field. -/
def saveTasksToStorageInternal (outcome : SaveOutcome) (now : String)
    (s : TaskState) : TaskState :=
  if s.autoSave then
    match outcome with
    | .ok => { s with lastSaved := some now }
    | .fail => { s with error := some "Failed to save tasks to localStorage" }
    | .exn => { s with error := some "Failed to save tasks to localStorage" }
  else
    s

/-- Reducer addTask: unshift the new task, then attempt the auto-save. -/
def addTask (p : TaskPayload) (genId now : String) (save : SaveOutcome)
    (s : TaskState) : TaskState :=
  saveTasksToStorageInternal save now { s with tasks := mkTask p genId now :: s.tasks }

/-- Reducer addMultipleTasks: each payload is paired with the id generated
for it; the block is unshifted in input order. -/
def addMultipleTasks (ps : List (TaskPayload × String)) (now : String)
    (save : SaveOutcome) (s : TaskState) : TaskState :=
  saveTasksToStorageInternal save now
    { s with tasks := ps.map (fun q => mkTask q.1 q.2 now) ++ s.tasks }

/-- Reducer setFilter. -/
def setFilter (f : TaskFilter) (s : TaskState) : TaskState :=
  { s with filter := f }

/-- Reducer setSearchQuery. -/
def setSearchQuery (q : String) (s : TaskState) : TaskState :=
  { s with searchQuery := q }

/-- Left fold over the characters accumulating the digits as a number. -/
def digitsVal : List Char → Nat → Nat
  | [], n => n
  | c :: cs, n => digitsVal cs (if c.isDigit then n * 10 + (c.toNat - 48) else n)

/-- Numeric reading of the digits of an ISO date/timestamp string, the
order-faithful model of new Date(s).getTime() for such strings. -/
def dateTime (s : String) : Nat :=
  digitsVal s.data 0

/-- Sign model of String.prototype.localeCompare (code-point order). -/
def localeCompare (a b : String) : Int :=
  if a < b then -1 else if b < a then 1 else 0

/-- The priorityOrder table inside the sort comparator: high 3, medium 2,
low 1. -/
def priorityOrder : Priority → Nat
  | .high => 3
  | .medium => 2
  | .low => 1

/-- The four sort keys accepted by the sortTasks reducer. -/
inductive SortKey where
  | priority
  | dueDate
  | createdAt
  | title
deriving DecidableEq, Repr

/-- The comparator passed to Array.prototype.sort by the sortTasks reducer
(sign of the returned number). -/
def taskCompare (key : SortKey) (a b : Task) : Int :=
  match key with
  | .priority => (priorityOrder b.priority : Int) - (priorityOrder a.priority : Int)
  | .dueDate =>
    match a.dueDate, b.dueDate with
    | none, none => 0
    | none, some _ => 1
    | some _, none => -1
    | some da, some db => (dateTime da : Int) - (dateTime db : Int)
  | .createdAt => (dateTime b.createdAt : Int) - (dateTime a.createdAt : Int)
  | .title => localeCompare a.title b.title

/-- The boolean order induced by the comparator; Array.prototype.sort is
stable (ECMA-262), modelled by a stable merge sort under this order. -/
def taskLe (key : SortKey) (a b : Task) : Bool :=
  taskCompare key a b ≤ 0

/-- Reducer sortTasks: stable in-place sort by the comparator, then the
auto-save attempt. -/
def sortTasks (key : SortKey) (now : String) (save : SaveOutcome)
    (s : TaskState) : TaskState :=
  saveTasksToStorageInternal save now
    { s with tasks := s.tasks.mergeSort (taskLe key) }

/-- Replace the first element satisfying p by its image under f; none when
no element matches.  This is the findIndex / find-then-assign pattern used
by updateTask, toggleTask and updateTaskPriority. -/
def updateFirst (p : Task → Bool) (f : Task → Task) : List Task → Option (List Task)
  | [] => none
  | t :: ts =>
    if p t then some (f t :: ts)
    else (updateFirst p f ts).map (fun ts2 => t :: ts2)

/-- The object spread { ...task, ...updates, updatedAt: now } of updateTask:
every field present in updates wins over the task field, and updatedAt is
then overwritten with the fresh timestamp. -/
def mergeTask (t : Task) (u : TaskUpdates) (now : String) : Task :=
  { id := u.id.getD t.id
    title := u.title.getD t.title
    description := u.description.getD t.description
    completed := u.completed.getD t.completed
    priority := u.priority.getD t.priority
    dueDate := u.dueDate.getD t.dueDate
    createdAt := u.createdAt.getD t.createdAt
    updatedAt := now }

/-- Reducer updateTask: merge into the first task with the given id and
auto-save; otherwise set the not-found error. -/
def updateTask (id : String) (u : TaskUpdates) (now : String)
    (save : SaveOutcome) (s : TaskState) : TaskState :=
  match updateFirst (fun t => t.id == id) (fun t => mergeTask t u now) s.tasks with
  | some ts => saveTasksToStorageInternal save now { s with tasks := ts }
  | none => { s with error := some "Task not found" }

/-- Reducer toggleTask: flip completed on the first task with the given id,
refresh updatedAt, auto-save; otherwise set the not-found error. -/
def toggleTask (id : String) (now : String) (save : SaveOutcome)
    (s : TaskState) : TaskState :=
  match updateFirst (fun t => t.id == id)
      (fun t => { t with completed := !t.completed, updatedAt := now }) s.tasks with
  | some ts => saveTasksToStorageInternal save now { s with tasks := ts }
  | none => { s with error := some "Task not found" }

/-- One step of the forEach in toggleMultipleTasks: set completed on the
first task with this id, silently skipping a missing id. -/
def setCompletedFirst (id : String) (completed : Bool) (now : String)
    (ts : List Task) : List Task :=
  (updateFirst (fun t => t.id == id)
    (fun t => { t with completed := completed, updatedAt := now }) ts).getD ts

/-- Reducer toggleMultipleTasks: apply setCompletedFirst for each id in
order, then one auto-save attempt. -/
def toggleMultipleTasks (ids : List String) (completed : Bool) (now : String)
    (save : SaveOutcome) (s : TaskState) : TaskState :=
  saveTasksToStorageInternal save now
    { s with tasks := ids.foldl (fun ts id => setCompletedFirst id completed now ts) s.tasks }

/-- Reducer updateTaskPriority: set priority on the first task with the
given id, refresh updatedAt, auto-save; otherwise the not-found error. -/
def updateTaskPriority (id : String) (pr : Priority) (now : String)
    (save : SaveOutcome) (s : TaskState) : TaskState :=
  match updateFirst (fun t => t.id == id)
      (fun t => { t with priority := pr, updatedAt := now }) s.tasks with
  | some ts => saveTasksToStorageInternal save now { s with tasks := ts }
  | none => { s with error := some "Task not found" }

/-- Reducer deleteTask: filter the id out; when the length is unchanged no
task matched, so set the not-found error, else auto-save. -/
def deleteTask (id : String) (now : String) (save : SaveOutcome)
    (s : TaskState) : TaskState :=
  let ts := s.tasks.filter (fun t => t.id != id)
  if ts.length == s.tasks.length then
    { s with tasks := ts, error := some "Task not found" }
  else
    saveTasksToStorageInternal save now { s with tasks := ts }

/-- Reducer deleteMultipleTasks: remove every task whose id is listed;
missing ids are silently ignored. -/
def deleteMultipleTasks (ids : List String) (now : String) (save : SaveOutcome)
    (s : TaskState) : TaskState :=
  saveTasksToStorageInternal save now
    { s with tasks := s.tasks.filter (fun t => !(ids.contains t.id)) }

/-- Reducer clearCompleted: keep only the non-completed tasks. -/
def clearCompleted (now : String) (save : SaveOutcome) (s : TaskState) : TaskState :=
  saveTasksToStorageInternal save now
    { s with tasks := s.tasks.filter (fun t => !t.completed) }

/-- Reducer clearAllTasks. -/
def clearAllTasks (now : String) (save : SaveOutcome) (s : TaskState) : TaskState :=
  saveTasksToStorageInternal save now { s with tasks := [] }

/-- Reducer duplicateTask: clone the first task with the given id under a
fresh id, title suffixed with a Copy marker, completed forced false, fresh
timestamps, unshifted; otherwise the not-found error. -/
def duplicateTask (id : String) (genId now : String) (save : SaveOutcome)
    (s : TaskState) : TaskState :=
  match s.tasks.find? (fun t => t.id == id) with
  | some src =>
    let dup : Task :=
      { src with
        id := genId
        title := src.title ++ " (Copy)"
        completed := false
        createdAt := now
        updatedAt := now }
    saveTasksToStorageInternal save now { s with tasks := dup :: s.tasks }
  | none => { s with error := some "Task not found" }

/-- Reducer loadTasksFromStorage: loadTasks either returns a list (some) or
throws (none); on success the list replaces tasks, lastSaved is set and
error cleared, on a throw only the error is set. -/
def loadTasksFromStorage (loaded : Option (List Task)) (now : String)
    (s : TaskState) : TaskState :=
  match loaded with
  | some ts => { s with tasks := ts, lastSaved := some now, error := none }
  | none => { s with error := some "Failed to load tasks from storage" }

/-- Reducer saveTasksToStorage: an explicit save that does not consult
autoSave; success sets lastSaved and clears error, a false return or a
throw sets the save-failure error. -/
def saveTasksToStorage (now : String) (outcome : SaveOutcome)
    (s : TaskState) : TaskState :=
  match outcome with
  | .ok => { s with lastSaved := some now, error := none }
  | .fail => { s with error := some "Failed to save tasks to storage" }
  | .exn => { s with error := some "Failed to save tasks to storage" }

/-- Reducer importTasks of taskSlice.ts: wholesale replacement of the task
list by the payload, then the auto-save attempt. -/
def importTasksAction (ts : List Task) (now : String) (save : SaveOutcome)
    (s : TaskState) : TaskState :=
  saveTasksToStorageInternal save now { s with tasks := ts }

/-- Reducer toggleAutoSave: flip the flag; when it is now on, attempt an
immediate save. -/
def toggleAutoSave (now : String) (save : SaveOutcome) (s : TaskState) : TaskState :=
  let s2 := { s with autoSave := !s.autoSave }
  if s2.autoSave then saveTasksToStorageInternal save now s2 else s2

/-- Reducer clearError. -/
def clearError (s : TaskState) : TaskState :=
  { s with error := none }

/-- Reducer setLoading. -/
def setLoading (b : Bool) (s : TaskState) : TaskState :=
  { s with isLoading := b }

/-- One dispatched action, with the oracle values (generated ids, clock
readings, storage outcomes) the reducer consumed while running. -/
inductive Op where
  | add (p : TaskPayload) (genId now : String) (save : SaveOutcome)
  | addMultiple (ps : List (TaskPayload × String)) (now : String) (save : SaveOutcome)
  | setFilter (f : TaskFilter)
  | setSearchQuery (q : String)
  | sort (key : SortKey) (now : String) (save : SaveOutcome)
  | update (id : String) (u : TaskUpdates) (now : String) (save : SaveOutcome)
  | toggle (id : String) (now : String) (save : SaveOutcome)
  | toggleMultiple (ids : List String) (completed : Bool) (now : String) (save : SaveOutcome)
  | setPriority (id : String) (pr : Priority) (now : String) (save : SaveOutcome)
  | delete (id : String) (now : String) (save : SaveOutcome)
  | deleteMultiple (ids : List String) (now : String) (save : SaveOutcome)
  | clearCompleted (now : String) (save : SaveOutcome)
  | clearAll (now : String) (save : SaveOutcome)
  | duplicate (id : String) (genId now : String) (save : SaveOutcome)
  | load (loaded : Option (List Task)) (now : String)
  | saveToStorage (now : String) (outcome : SaveOutcome)
  | importReplace (ts : List Task) (now : String) (save : SaveOutcome)
  | toggleAutoSave (now : String) (save : SaveOutcome)
  | clearError
  | setLoading (b : Bool)

/-- The dispatch table: apply one action to the state. -/
def applyOp (s : TaskState) : Op → TaskState
  | .add p genId now save => addTask p genId now save s
  | .addMultiple ps now save => addMultipleTasks ps now save s
  | .setFilter f => setFilter f s
  | .setSearchQuery q => setSearchQuery q s
  | .sort key now save => sortTasks key now save s
  | .update id u now save => updateTask id u now save s
  | .toggle id now save => toggleTask id now save s
  | .toggleMultiple ids c now save => toggleMultipleTasks ids c now save s
  | .setPriority id pr now save => updateTaskPriority id pr now save s
  | .delete id now save => deleteTask id now save s
  | .deleteMultiple ids now save => deleteMultipleTasks ids now save s
  | .clearCompleted now save => clearCompleted now save s
  | .clearAll now save => clearAllTasks now save s
  | .duplicate id genId now save => duplicateTask id genId now save s
  | .load loaded now => loadTasksFromStorage loaded now s
  | .saveToStorage now outcome => saveTasksToStorage now outcome s
  | .importReplace ts now save => importTasksAction ts now save s
  | .toggleAutoSave now save => toggleAutoSave now save s
  | .clearError => clearError s
  | .setLoading b => setLoading b s

/-- Run a sequence of dispatched actions. -/
def runOps (s : TaskState) (ops : List Op) : TaskState :=
  ops.foldl applyOp s

/-- The id column of the list is duplicate-free. -/
def uniqueIds (ts : List Task) : Prop :=
  (ts.map Task.id).Nodup

instance (ts : List Task) : Decidable (uniqueIds ts) := by
  unfold uniqueIds
  infer_instance

/-- The three default tasks of loadInitialTasks (their clock readings are
passed in: the two due dates and the shared creation timestamp). -/
def defaultTasks (today soon now : String) : List Task :=
  [{ id := "1", title := "Complete Redux setup",
     description := "Set up Redux store and task slice for state management",
     completed := true, priority := .high, dueDate := some today,
     createdAt := now, updatedAt := now },
   { id := "2", title := "Design task interface",
     description := "Create a beautiful and intuitive task management interface",
     completed := false, priority := .medium, dueDate := none,
     createdAt := now, updatedAt := now },
   { id := "3", title := "Add CRUD operations",
     description := "Implement create, read, update, and delete functionality",
     completed := false, priority := .high, dueDate := some soon,
     createdAt := now, updatedAt := now }]

/-- The initialState of taskSlice.ts, with the result of loadInitialTasks
passed in: filter all, empty query, no error, autoSave on. -/
def initialState (loaded : List Task) : TaskState :=
  { tasks := loaded, filter := .all, searchQuery := "", isLoading := false,
    error := none, lastSaved := none, autoSave := true }

/-- A concrete task for instantiations. -/
def sampleTask (id : String) : Task :=
  { id := id, title := "write the report", description := "for monday",
    completed := false, priority := .medium, dueDate := none,
    createdAt := "2024-01-01T00:00:00.000Z",
    updatedAt := "2024-01-01T00:00:00.000Z" }

/-- A concrete addTask payload for instantiations. -/
def samplePayload : TaskPayload :=
  { title := "write the report", description := "for monday",
    completed := false, priority := .medium, dueDate := none }

/-- A concrete store state over a given list, for instantiations. -/
def sampleState (ts : List Task) : TaskState :=
  { tasks := ts, filter := .all, searchQuery := "", isLoading := false,
    error := none, lastSaved := none, autoSave := true }

/-- A concrete task without a due date, for the sort example. -/
def dueNone : Task := { sampleTask "n" with dueDate := none }

/-- A concrete task due January 2024, for the sort example. -/
def dueJan24 : Task := { sampleTask "j" with dueDate := some "2024-01-01" }

/-- A concrete task due June 2023, for the sort example. -/
def dueJun23 : Task := { sampleTask "u" with dueDate := some "2023-06-01" }

namespace Storage

/-- A JSON value, the result of JSON.parse. -/
inductive Json where
  | null
  | bool (b : Bool)
  | num (n : Int)
  | str (s : String)
  | arr (xs : List Json)
  | obj (fields : List (String × Json))

/-- Property access on a parsed value: some on an object that has the key,
none otherwise (JS yields undefined on a missing key or a non-object). -/
def Json.getField : Json → String → Option Json
  | .obj fs, k => fs.lookup k
  | _, _ => none

/-- The typeof x equals object and x is not null test (arrays included). -/
def Json.isObjLike : Json → Bool
  | .obj _ => true
  | .arr _ => true
  | _ => false

/-- The typeof x equals string test on a property access result. -/
def isStrField : Option Json → Bool
  | some (.str _) => true
  | _ => false

/-- The isValidTask shape check of storage.ts, on a parsed JSON value. -/
def isValidTask (j : Json) : Bool :=
  j.isObjLike &&
  isStrField (j.getField "id") &&
  isStrField (j.getField "title") &&
  isStrField (j.getField "description") &&
  (match j.getField "completed" with
   | some (.bool _) => true
   | _ => false) &&
  (match j.getField "priority" with
   | some (.str p) => p == "low" || p == "medium" || p == "high"
   | _ => false) &&
  (match j.getField "dueDate" with
   | some .null => true
   | some (.str _) => true
   | _ => false) &&
  isStrField (j.getField "createdAt") &&
  isStrField (j.getField "updatedAt")

/-- The isValidStorageData check of storage.ts: an object with a tasks
array whose entries all pass isValidTask, a string version and a string
lastUpdated. -/
def isValidStorageData (j : Json) : Bool :=
  j.isObjLike &&
  (match j.getField "tasks" with
   | some (.arr _) => true
   | _ => false) &&
  isStrField (j.getField "version") &&
  isStrField (j.getField "lastUpdated") &&
  (match j.getField "tasks" with
   | some (.arr ts) => ts.all isValidTask
   | _ => false)

/-- The STORAGE_VERSION constant. -/
def STORAGE_VERSION : String := "1.0"

/-- Serialisation of a Priority back to its JSON string. -/
def priorityToString : Priority → String
  | .low => "low"
  | .medium => "medium"
  | .high => "high"

/-- JSON.stringify of one Task object, at the JSON-value level: the object
with the eight Task fields. -/
def taskToJson (t : Task) : Json :=
  .obj [("id", .str t.id),
        ("title", .str t.title),
        ("description", .str t.description),
        ("completed", .bool t.completed),
        ("priority", .str (priorityToString t.priority)),
        ("dueDate", match t.dueDate with
                    | none => .null
                    | some d => .str d),
        ("createdAt", .str t.createdAt),
        ("updatedAt", .str t.updatedAt)]

/-- Reading a JSON value that passed isValidTask back as a Task record
(the TS code does this with a type predicate, no conversion). -/
def jsonToTask (j : Json) : Option Task :=
  match j.getField "id", j.getField "title", j.getField "description",
        j.getField "completed", j.getField "priority", j.getField "dueDate",
        j.getField "createdAt", j.getField "updatedAt" with
  | some (.str id), some (.str title), some (.str descr),
    some (.bool completed), some (.str pr), some dd,
    some (.str createdAt), some (.str updatedAt) =>
    let priority : Option Priority :=
      if pr == "low" then some .low
      else if pr == "medium" then some .medium
      else if pr == "high" then some .high
      else none
    let dueDate : Option (Option String) :=
      match dd with
      | .null => some none
      | .str d => some (some d)
      | _ => none
    match priority, dueDate with
    | some pr2, some dd2 =>
      some { id := id, title := title, description := descr,
             completed := completed, priority := pr2, dueDate := dd2,
             createdAt := createdAt, updatedAt := updatedAt }
    | _, _ => none
  | _, _, _, _, _, _, _, _ => none

/-- exportTasks of storage.ts at the JSON-value level: the backup document
with the tasks array, an exportedAt stamp, the version and the app name. -/
def exportTasks (tasks : List Task) (exportedAt : String) : Json :=
  .obj [("tasks", .arr (tasks.map taskToJson)),
        ("exportedAt", .str exportedAt),
        ("version", .str STORAGE_VERSION),
        ("appName", .str "Task Manager Pro")]

/-- importTasks of storage.ts: the argument stands for the JSON.parse
attempt on the input string (error when the parse threw).  A missing or
non-array tasks property throws, caught and rethrown as the fixed import
error; otherwise the valid entries are kept and returned as Task records. -/
def importTasks (parsed : Except Unit Json) : Except String (List Task) :=
  match parsed with
  | .error _ => .error "Invalid import file format"
  | .ok j =>
    match j.getField "tasks" with
    | some (.arr ts) => .ok ((ts.filter isValidTask).filterMap jsonToTask)
    | _ => .error "Invalid import file format"

/-- loadTasks of storage.ts.  serialized stands for the stored string under
the tasks key and its JSON.parse attempt: none when the key is absent,
some (error) when the stored string does not parse, some (ok j) when it
parses to j.  storedVersion is the stored version-tag value.  The returned
list holds the raw task objects that survive validation. -/
def loadTasks (serialized : Option (Except Unit Json))
    (storedVersion : Option String) : List Json :=
  match serialized with
  | none => []
  | some parseResult =>
    if storedVersion ≠ some STORAGE_VERSION then
      []
    else
      match parseResult with
      | .error _ => []
      | .ok j =>
        if !isValidStorageData j then
          []
        else
          match j.getField "tasks" with
          | some (.arr ts) => ts.filter isValidTask
          | _ => []

end Storage

/-- The auto-save helper never touches the task list. -/
theorem saveInternal_tasks (o : SaveOutcome) (now : String) (s : TaskState) :
    (saveTasksToStorageInternal o now s).tasks = s.tasks := by
  unfold saveTasksToStorageInternal
  by_cases h : s.autoSave = true <;> cases o <;> simp [h]

/-- updateFirst finds nothing when no element satisfies the predicate. -/
theorem updateFirst_eq_none {p : Task → Bool} {f : Task → Task} {l : List Task}
    (h : ∀ t ∈ l, p t = false) : updateFirst p f l = none := by
  induction l with
  | nil => rfl
  | cons a ts ih =>
    have ha : p a = false := h a (List.mem_cons_self a ts)
    simp [updateFirst, ha, ih (fun t ht => h t (List.mem_cons_of_mem a ht))]

/-- A list with a match splits at its first match. -/
theorem first_match_decomp {p : Task → Bool} {l : List Task}
    (h : ∃ t ∈ l, p t = true) :
    ∃ l1 t l2, l = l1 ++ t :: l2 ∧ (∀ v ∈ l1, p v = false) ∧ p t = true := by
  induction l with
  | nil => simp at h
  | cons a ts ih =>
    by_cases ha : p a = true
    · exact ⟨[], a, ts, rfl, by simp, ha⟩
    · have ha2 : p a = false := by simpa using ha
      have hts : ∃ t ∈ ts, p t = true := by
        obtain ⟨t, ht, hpt⟩ := h
        rcases List.mem_cons.mp ht with rfl | hmem
        · exact absurd hpt ha
        · exact ⟨t, hmem, hpt⟩
      obtain ⟨l1, t, l2, heq, hl1, hpt⟩ := ih hts
      refine ⟨a :: l1, t, l2, by simp [heq], ?_, hpt⟩
      intro v hv
      rcases List.mem_cons.mp hv with rfl | hv2
      · exact ha2
      · exact hl1 v hv2

/-- updateFirst on a list split at its first match rewrites that match. -/
theorem updateFirst_append {p : Task → Bool} {f : Task → Task}
    {l1 : List Task} {t : Task} {l2 : List Task}
    (hl1 : ∀ v ∈ l1, p v = false) (hpt : p t = true) :
    updateFirst p f (l1 ++ t :: l2) = some (l1 ++ f t :: l2) := by
  induction l1 with
  | nil => simp [updateFirst, hpt]
  | cons a l1 ih =>
    have ha : p a = false := hl1 a (List.mem_cons_self a l1)
    simp [updateFirst, ha, ih (fun v hv => hl1 v (List.mem_cons_of_mem a hv))]

/-- C1: on an id matching no task, each of the five single-id operations
(update, toggleCompletion, setPriority, delete, duplicate) returns
normally (the reducers are total functions), sets error to the not-found
message, and leaves every other state component, the task list included,
exactly as it was. -/
theorem notFound_sets_error_and_preserves_state
    (s : TaskState) (id : String) (u : TaskUpdates) (pr : Priority)
    (genId now : String) (save : SaveOutcome)
    (h : ∀ t ∈ s.tasks, t.id ≠ id) :
    updateTask id u now save s = { s with error := some "Task not found" } ∧
    toggleTask id now save s = { s with error := some "Task not found" } ∧
    updateTaskPriority id pr now save s = { s with error := some "Task not found" } ∧
    deleteTask id now save s = { s with error := some "Task not found" } ∧
    duplicateTask id genId now save s = { s with error := some "Task not found" } := by
  have hfalse : ∀ t ∈ s.tasks, ((fun t : Task => t.id == id) t) = false := by
    intro t ht
    simpa using h t ht
  have hfilter : s.tasks.filter (fun t => t.id != id) = s.tasks := by
    refine List.filter_eq_self.mpr ?_
    intro a ha
    simpa using h a ha
  refine ⟨?_, ?_, ?_, ?_, ?_⟩
  · unfold updateTask
    rw [updateFirst_eq_none hfalse]
  · unfold toggleTask
    rw [updateFirst_eq_none hfalse]
  · unfold updateTaskPriority
    rw [updateFirst_eq_none hfalse]
  · unfold deleteTask
    simp [hfilter]
  · unfold duplicateTask
    rw [List.find?_eq_none.mpr (fun t ht => by simpa using h t ht)]

/-- Concrete instantiation of the C1 theorem. -/
theorem notFound_sets_error_and_preserves_state_witness :
    (∀ t ∈ (sampleState [sampleTask "a"]).tasks, t.id ≠ "zz") ∧
    deleteTask "zz" "2025" .ok (sampleState [sampleTask "a"]) =
      { sampleState [sampleTask "a"] with error := some "Task not found" } :=
  ⟨by decide,
   (notFound_sets_error_and_preserves_state (sampleState [sampleTask "a"])
     "zz" {} .low "g" "2025" .ok (by decide)).2.2.2.1⟩

/-- C6: duplicating an existing id unshifts a clone of the source task with
completed forced false, the Copy suffix on the title, the freshly generated
id and fresh timestamps, while description, priority and dueDate are taken
from the source; the rest of the list, the source included, is unchanged. -/
theorem duplicateTask_spec
    (s : TaskState) (id genId now : String) (save : SaveOutcome) (src : Task)
    (h : s.tasks.find? (fun t => t.id == id) = some src) :
    (duplicateTask id genId now save s).tasks =
      { src with
        id := genId,
        title := src.title ++ " (Copy)",
        completed := false,
        createdAt := now,
        updatedAt := now } :: s.tasks := by
  unfold duplicateTask
  rw [h]
  simp [saveInternal_tasks]

/-- Concrete instantiation of the C6 theorem. -/
theorem duplicateTask_spec_witness :
    (sampleState [sampleTask "a"]).tasks.find? (fun t => t.id == "a") =
      some (sampleTask "a") ∧
    (duplicateTask "a" "b" "2025" .ok (sampleState [sampleTask "a"])).tasks =
      { sampleTask "a" with
        id := "b",
        title := (sampleTask "a").title ++ " (Copy)",
        completed := false,
        createdAt := "2025",
        updatedAt := "2025" } :: [sampleTask "a"] :=
  ⟨by decide,
   duplicateTask_spec (sampleState [sampleTask "a"]) "a" "b" "2025" .ok
     (sampleTask "a") (by decide)⟩

/-- C10: the explicit saveTasksToStorage reducer ignores the autoSave flag;
a successful write sets lastSaved and resets error to null, a failed or
throwing write sets the save-failure error, and the task list is unchanged
in every case. -/
theorem saveTasksToStorage_spec (s : TaskState) (now : String) :
    saveTasksToStorage now .ok s = { s with lastSaved := some now, error := none } ∧
    saveTasksToStorage now .fail s =
      { s with error := some "Failed to save tasks to storage" } ∧
    saveTasksToStorage now .exn s =
      { s with error := some "Failed to save tasks to storage" } ∧
    (∀ o : SaveOutcome, (saveTasksToStorage now o s).tasks = s.tasks) ∧
    (∀ o : SaveOutcome, ∀ b : Bool,
       saveTasksToStorage now o { s with autoSave := b } =
         { saveTasksToStorage now o s with autoSave := b }) := by
  refine ⟨rfl, rfl, rfl, ?_, ?_⟩
  · intro o
    cases o <;> rfl
  · intro o b
    cases o <;> rfl

/-- C5: on an existing id, update / toggleCompletion / setPriority rewrite
exactly the first matching task: its updatedAt becomes the operation time
(the fresh clock reading, hence non-decreasing for a monotone clock), every
field the operation does not modify keeps its value, and the tasks before
and after it in the list are untouched. -/
theorem existing_id_ops_refresh_updatedAt_and_frame
    (s : TaskState) (id : String) (u : TaskUpdates) (pr : Priority)
    (now : String) (save : SaveOutcome)
    (h : ∃ t ∈ s.tasks, t.id = id) :
    ∃ l1 t l2,
      s.tasks = l1 ++ t :: l2 ∧ t.id = id ∧ (∀ v ∈ l1, v.id ≠ id) ∧
      (updateTask id u now save s).tasks = l1 ++ mergeTask t u now :: l2 ∧
      (mergeTask t u now).updatedAt = now ∧
      (u.title = none → (mergeTask t u now).title = t.title) ∧
      (u.description = none → (mergeTask t u now).description = t.description) ∧
      (u.completed = none → (mergeTask t u now).completed = t.completed) ∧
      (u.priority = none → (mergeTask t u now).priority = t.priority) ∧
      (u.dueDate = none → (mergeTask t u now).dueDate = t.dueDate) ∧
      (toggleTask id now save s).tasks =
        l1 ++ { t with completed := !t.completed, updatedAt := now } :: l2 ∧
      (updateTaskPriority id pr now save s).tasks =
        l1 ++ { t with priority := pr, updatedAt := now } :: l2 := by
  have hb : ∃ t ∈ s.tasks, ((fun t : Task => t.id == id) t) = true := by
    obtain ⟨t, ht, he⟩ := h
    exact ⟨t, ht, by simp [he]⟩
  obtain ⟨l1, t, l2, heq, hl1, hpt⟩ := first_match_decomp hb
  refine ⟨l1, t, l2, heq, by simpa using hpt, fun v hv => by simpa using hl1 v hv,
    ?_, rfl, ?_, ?_, ?_, ?_, ?_, ?_, ?_⟩
  · unfold updateTask
    rw [heq, updateFirst_append hl1 hpt]
    simp [saveInternal_tasks]
  · intro hu
    simp [mergeTask, hu]
  · intro hu
    simp [mergeTask, hu]
  · intro hu
    simp [mergeTask, hu]
  · intro hu
    simp [mergeTask, hu]
  · intro hu
    simp [mergeTask, hu]
  · unfold toggleTask
    rw [heq, updateFirst_append hl1 hpt]
    simp [saveInternal_tasks]
  · unfold updateTaskPriority
    rw [heq, updateFirst_append hl1 hpt]
    simp [saveInternal_tasks]

/-- Concrete instantiation of the C5 theorem. -/
theorem existing_id_ops_refresh_updatedAt_and_frame_witness :
    (∃ t ∈ (sampleState [sampleTask "a"]).tasks, t.id = "a") ∧
    ∃ l1 t l2,
      (sampleState [sampleTask "a"]).tasks = l1 ++ t :: l2 ∧ t.id = "a" ∧
      (∀ v ∈ l1, v.id ≠ "a") ∧
      (updateTask "a" {} "2025" .ok (sampleState [sampleTask "a"])).tasks =
        l1 ++ mergeTask t {} "2025" :: l2 ∧
      (mergeTask t {} "2025").updatedAt = "2025" ∧
      (({} : TaskUpdates).title = none → (mergeTask t {} "2025").title = t.title) ∧
      (({} : TaskUpdates).description = none →
        (mergeTask t {} "2025").description = t.description) ∧
      (({} : TaskUpdates).completed = none →
        (mergeTask t {} "2025").completed = t.completed) ∧
      (({} : TaskUpdates).priority = none →
        (mergeTask t {} "2025").priority = t.priority) ∧
      (({} : TaskUpdates).dueDate = none →
        (mergeTask t {} "2025").dueDate = t.dueDate) ∧
      (toggleTask "a" "2025" .ok (sampleState [sampleTask "a"])).tasks =
        l1 ++ { t with completed := !t.completed, updatedAt := "2025" } :: l2 ∧
      (updateTaskPriority "a" .high "2025" .ok (sampleState [sampleTask "a"])).tasks =
        l1 ++ { t with priority := .high, updatedAt := "2025" } :: l2 :=
  ⟨by decide,
   existing_id_ops_refresh_updatedAt_and_frame (sampleState [sampleTask "a"])
     "a" {} .high "2025" .ok (by decide)⟩

/-- C4 counterexample: updateTask accepts a partial that contains id and
createdAt themselves, and the spread then overwrites both, so the claim
that update with any partial field set preserves id and createdAt is false
on the code. -/
theorem updateTask_can_change_id_counterexample :
    (updateTask "a" { id := some "b", createdAt := some "1999" } "2025" .ok
        (sampleState [sampleTask "a"])).tasks.map Task.id ≠
      (sampleState [sampleTask "a"]).tasks.map Task.id ∧
    (updateTask "a" { id := some "b", createdAt := some "1999" } "2025" .ok
        (sampleState [sampleTask "a"])).tasks.map Task.createdAt ≠
      (sampleState [sampleTask "a"]).tasks.map Task.createdAt := by
  constructor <;> decide

/-- C4 amended: a task's id and createdAt never change under updateTask
provided the partial update does not itself carry an id or createdAt field
(and toggle / setPriority / duplicate never touch them); the unrestricted
claim fails by the counterexample above. -/
theorem updateTask_preserves_id_createdAt
    (s : TaskState) (id : String) (u : TaskUpdates) (now : String)
    (save : SaveOutcome)
    (hid : u.id = none) (hca : u.createdAt = none)
    (h : ∃ t ∈ s.tasks, t.id = id) :
    ∃ l1 t l2,
      s.tasks = l1 ++ t :: l2 ∧ t.id = id ∧
      (updateTask id u now save s).tasks = l1 ++ mergeTask t u now :: l2 ∧
      (mergeTask t u now).id = t.id ∧
      (mergeTask t u now).createdAt = t.createdAt := by
  have hb : ∃ t ∈ s.tasks, ((fun t : Task => t.id == id) t) = true := by
    obtain ⟨t, ht, he⟩ := h
    exact ⟨t, ht, by simp [he]⟩
  obtain ⟨l1, t, l2, heq, hl1, hpt⟩ := first_match_decomp hb
  refine ⟨l1, t, l2, heq, by simpa using hpt, ?_, ?_, ?_⟩
  · unfold updateTask
    rw [heq, updateFirst_append hl1 hpt]
    simp [saveInternal_tasks]
  · simp [mergeTask, hid]
  · simp [mergeTask, hca]

/-- Concrete instantiation of the amended C4 theorem. -/
theorem updateTask_preserves_id_createdAt_witness :
    (({ title := some "new title" } : TaskUpdates).id = none ∧
     ({ title := some "new title" } : TaskUpdates).createdAt = none ∧
     ∃ t ∈ (sampleState [sampleTask "a"]).tasks, t.id = "a") ∧
    ∃ l1 t l2,
      (sampleState [sampleTask "a"]).tasks = l1 ++ t :: l2 ∧ t.id = "a" ∧
      (updateTask "a" { title := some "new title" } "2025" .ok
          (sampleState [sampleTask "a"])).tasks =
        l1 ++ mergeTask t { title := some "new title" } "2025" :: l2 ∧
      (mergeTask t { title := some "new title" } "2025").id = t.id ∧
      (mergeTask t { title := some "new title" } "2025").createdAt = t.createdAt :=
  ⟨⟨rfl, rfl, by decide⟩,
   updateTask_preserves_id_createdAt (sampleState [sampleTask "a"]) "a"
     { title := some "new title" } "2025" .ok rfl rfl (by decide)⟩

/-- C3 counterexample: with autoSave on and a stale persistence-failure
message in error, a mutation whose write succeeds sets lastSaved but does
not clear the error field, so the claim that a successful auto-save write
clears persistence-related error messages is false on the code. -/
theorem autosave_success_keeps_error_counterexample :
    (addTask samplePayload "i" "2025" .ok
        { tasks := [], filter := .all, searchQuery := "", isLoading := false,
          error := some "Failed to save tasks to localStorage",
          lastSaved := none, autoSave := true }).lastSaved = some "2025" ∧
    (addTask samplePayload "i" "2025" .ok
        { tasks := [], filter := .all, searchQuery := "", isLoading := false,
          error := some "Failed to save tasks to localStorage",
          lastSaved := none, autoSave := true }).error =
      some "Failed to save tasks to localStorage" := by
  constructor <;> decide

/-- C3 amended: with autoSave on, every mutation is followed by a write
attempt; a successful write sets lastSaved to the operation time and leaves
the error field unchanged (it is not cleared), a failed or throwing write
sets the persistence-failure message, and in neither case is the in-memory
mutation rolled back (addTask shown as the representative mutation: the new
task stays at the front even when the write fails). -/
theorem autosave_write_semantics
    (s : TaskState) (p : TaskPayload) (genId now : String)
    (h : s.autoSave = true) :
    saveTasksToStorageInternal .ok now s = { s with lastSaved := some now } ∧
    saveTasksToStorageInternal .fail now s =
      { s with error := some "Failed to save tasks to localStorage" } ∧
    saveTasksToStorageInternal .exn now s =
      { s with error := some "Failed to save tasks to localStorage" } ∧
    (∀ o : SaveOutcome, (addTask p genId now o s).tasks = mkTask p genId now :: s.tasks) := by
  refine ⟨?_, ?_, ?_, ?_⟩
  · simp [saveTasksToStorageInternal, h]
  · simp [saveTasksToStorageInternal, h]
  · simp [saveTasksToStorageInternal, h]
  · intro o
    simp [addTask, saveInternal_tasks]

/-- Concrete instantiation of the amended C3 theorem. -/
theorem autosave_write_semantics_witness :
    (sampleState []).autoSave = true ∧
    saveTasksToStorageInternal .ok "2025" (sampleState []) =
      { sampleState [] with lastSaved := some "2025" } ∧
    (addTask samplePayload "i" "2025" .fail (sampleState [])).tasks =
      [mkTask samplePayload "i" "2025"] :=
  ⟨rfl,
   (autosave_write_semantics (sampleState []) samplePayload "i" "2025" rfl).1,
   (autosave_write_semantics (sampleState []) samplePayload "i" "2025" rfl).2.2.2 .fail⟩

/-- C2 counterexample: the store never checks id uniqueness.  Dispatching
the importTasks action with a payload holding two tasks of one id is a
reachable one-operation sequence from the initial state whose resulting
list carries a duplicate id; and addTask inserts its generated id verbatim
even when it coincides with an existing id (the generator output is never
compared against the list). -/
theorem uniqueIds_counterexample :
    ¬ uniqueIds (runOps
        (initialState (defaultTasks "2024-01-01" "2024-01-08" "2024-01-01T00:00:00.000Z"))
        [Op.importReplace [sampleTask "dup", sampleTask "dup"] "2025" .ok]).tasks ∧
    ¬ uniqueIds (addTask samplePayload "1" "2025" .ok
        (initialState (defaultTasks "2024-01-01" "2024-01-08" "2024-01-01T00:00:00.000Z"))).tasks := by
  constructor <;> decide

/-- C2 amended: id uniqueness is preserved by addTask exactly under the
freshness assumption the code leaves implicit: when the list's ids are
duplicate-free and the generated id differs from every id in the list, the
list after addTask is duplicate-free again.  Unconditional uniqueness fails
by the counterexample above. -/
theorem addTask_fresh_id_preserves_uniqueIds
    (s : TaskState) (p : TaskPayload) (genId now : String) (save : SaveOutcome)
    (h1 : uniqueIds s.tasks) (h2 : ∀ t ∈ s.tasks, t.id ≠ genId) :
    uniqueIds (addTask p genId now save s).tasks := by
  have ht : (addTask p genId now save s).tasks = mkTask p genId now :: s.tasks := by
    simp [addTask, saveInternal_tasks]
  have hhead : (mkTask p genId now).id = genId := rfl
  unfold uniqueIds at *
  rw [ht, List.map_cons, hhead]
  refine List.nodup_cons.mpr ⟨?_, h1⟩
  intro hmem
  obtain ⟨t, htm, hid⟩ := List.mem_map.mp hmem
  exact h2 t htm hid

/-- Concrete instantiation of the amended C2 theorem. -/
theorem addTask_fresh_id_preserves_uniqueIds_witness :
    (uniqueIds (sampleState [sampleTask "a"]).tasks ∧
     ∀ t ∈ (sampleState [sampleTask "a"]).tasks, t.id ≠ "b") ∧
    uniqueIds (addTask samplePayload "b" "2025" .ok (sampleState [sampleTask "a"])).tasks :=
  ⟨⟨by decide, by decide⟩,
   addTask_fresh_id_preserves_uniqueIds (sampleState [sampleTask "a"])
     samplePayload "b" "2025" .ok (by decide) (by decide)⟩

/-- The dueDate comparator order is transitive. -/
theorem taskLe_dueDate_trans (a b c : Task)
    (hab : taskLe .dueDate a b = true) (hbc : taskLe .dueDate b c = true) :
    taskLe .dueDate a c = true := by
  simp only [taskLe, taskCompare, decide_eq_true_eq] at *
  rcases ha : a.dueDate with _ | da <;> rcases hb : b.dueDate with _ | db <;>
    rcases hc : c.dueDate with _ | dc <;> simp_all <;> omega

/-- The dueDate comparator order is total. -/
theorem taskLe_dueDate_total (a b : Task) :
    (taskLe .dueDate a b || taskLe .dueDate b a) = true := by
  simp only [taskLe, taskCompare, Bool.or_eq_true, decide_eq_true_eq]
  rcases ha : a.dueDate with _ | da <;> rcases hb : b.dueDate with _ | db <;>
    simp_all <;> omega

/-- What the dueDate comparator order means pointwise: ascending dates, and
never a dated task after an undated one. -/
theorem taskLe_dueDate_imp (a b : Task) (h : taskLe .dueDate a b = true) :
    (∀ da ∈ a.dueDate, ∀ db ∈ b.dueDate, dateTime da ≤ dateTime db) ∧
    (a.dueDate = none → b.dueDate = none) := by
  simp only [taskLe, taskCompare, decide_eq_true_eq] at h
  rcases ha : a.dueDate with _ | da <;> rcases hb : b.dueDate with _ | db <;>
    simp_all <;> omega

/-- C7: sortBy dueDate permutes the task list into an order that is
pairwise consistent: dated tasks come in ascending date order and no dated
task follows an undated one, so the undated block sits at the end; on the
spec example (no date, January 2024, June 2023) the result is June 2023,
January 2024, no date. -/
theorem sortTasks_dueDate_spec (s : TaskState) (now : String) (save : SaveOutcome) :
    ((sortTasks .dueDate now save s).tasks).Perm s.tasks ∧
    ((sortTasks .dueDate now save s).tasks).Pairwise (fun a b =>
      (∀ da ∈ a.dueDate, ∀ db ∈ b.dueDate, dateTime da ≤ dateTime db) ∧
      (a.dueDate = none → b.dueDate = none)) ∧
    (sortTasks .dueDate now save (sampleState [dueNone, dueJan24, dueJun23])).tasks =
      [dueJun23, dueJan24, dueNone] := by
  have htasks : ∀ s2 : TaskState, (sortTasks .dueDate now save s2).tasks =
      s2.tasks.mergeSort (taskLe .dueDate) := by
    intro s2
    simp [sortTasks, saveInternal_tasks]
  refine ⟨?_, ?_, ?_⟩
  · rw [htasks]
    exact List.mergeSort_perm s.tasks _
  · rw [htasks]
    exact (List.sorted_mergeSort
        (fun a b c => taskLe_dueDate_trans a b c)
        (fun a b => taskLe_dueDate_total a b) s.tasks).imp
      (fun hab => taskLe_dueDate_imp _ _ hab)
  · rw [htasks]
    have h1 : taskLe .dueDate dueNone dueJan24 = false := by decide
    have h2 : taskLe .dueDate dueNone dueJun23 = false := by decide
    have h3 : taskLe .dueDate dueJan24 dueJun23 = false := by decide
    have h4 : taskLe .dueDate dueJan24 dueNone = true := by decide
    have h5 : taskLe .dueDate dueJun23 dueNone = true := by decide
    have h6 : taskLe .dueDate dueJun23 dueJan24 = true := by decide
    simp [sampleState, List.mergeSort, List.merge, h1, h2, h3, h4, h5, h6]

/-- A serialised task passes the isValidTask shape validation. -/
theorem isValidTask_taskToJson (t : Task) :
    Storage.isValidTask (Storage.taskToJson t) = true := by
  obtain ⟨id, title, descr, completed, priority, dueDate, ca, ua⟩ := t
  cases priority <;> cases dueDate <;> rfl

/-- Serialising a task and reading it back is the identity. -/
theorem jsonToTask_taskToJson (t : Task) :
    Storage.jsonToTask (Storage.taskToJson t) = some t := by
  obtain ⟨id, title, descr, completed, priority, dueDate, ca, ua⟩ := t
  cases priority <;> cases dueDate <;> rfl

/-- The import filter keeps every serialised task. -/
theorem filter_valid_map_taskToJson (ts : List Task) :
    (ts.map Storage.taskToJson).filter Storage.isValidTask =
      ts.map Storage.taskToJson := by
  induction ts with
  | nil => rfl
  | cons t ts ih => simp [isValidTask_taskToJson, ih]

/-- Reading back a serialised task list is the identity. -/
theorem filterMap_jsonToTask_map (ts : List Task) :
    (ts.map Storage.taskToJson).filterMap Storage.jsonToTask = ts := by
  induction ts with
  | nil => rfl
  | cons t ts ih => simp [List.filterMap_cons, jsonToTask_taskToJson, ih]

/-- C8: importTasks applied to the parse of the string exportTasks produced
(the parse of a stringify being the serialised value itself) returns the
original task list: same ids and field values in the same order; no entry
of a well-typed task list is dropped as invalid. -/
theorem export_import_roundtrip (ts : List Task) (exportedAt : String) :
    Storage.importTasks (.ok (Storage.exportTasks ts exportedAt)) = .ok ts := by
  have hfield : (Storage.exportTasks ts exportedAt).getField "tasks" =
      some (.arr (ts.map Storage.taskToJson)) := rfl
  simp only [Storage.importTasks, hfield]
  rw [filter_valid_map_taskToJson, filterMap_jsonToTask_map]

/-- A filtered list passes the filter's own check throughout. -/
theorem all_filter_self (p : Storage.Json → Bool) (l : List Storage.Json) :
    (l.filter p).all p = true := by
  simp only [List.all_eq_true]
  intro x hx
  exact (List.mem_filter.mp hx).2

/-- C9: loadTasks is a total function (the thrown-parse and thrown-read
paths are the error-shaped inputs) and every task object it returns passes
the isValidTask shape validation; it returns the empty list when the
storage key is absent, when the stored document does not parse, when the
stored version tag differs from the current version, and when the parsed
document fails the storage-shape validation. -/
theorem loadTasks_spec :
    (∀ ser ver, ((Storage.loadTasks ser ver).all Storage.isValidTask) = true) ∧
    (∀ ver, Storage.loadTasks none ver = []) ∧
    (∀ e ver, Storage.loadTasks (some (.error e)) ver = []) ∧
    (∀ j ver, ver ≠ some Storage.STORAGE_VERSION →
       Storage.loadTasks (some (.ok j)) ver = []) ∧
    (∀ j ver, Storage.isValidStorageData j = false →
       Storage.loadTasks (some (.ok j)) ver = []) := by
  refine ⟨?_, ?_, ?_, ?_, ?_⟩
  · intro ser ver
    unfold Storage.loadTasks
    split
    · rfl
    · split
      · rfl
      · split
        · rfl
        · split
          · rfl
          · split
            · exact all_filter_self _ _
            · rfl
  · intro ver
    rfl
  · intro e ver
    unfold Storage.loadTasks
    by_cases hv : ver ≠ some Storage.STORAGE_VERSION
    · simp [hv]
    · simp [hv]
  · intro j ver hv
    unfold Storage.loadTasks
    simp [hv]
  · intro j ver hinv
    unfold Storage.loadTasks
    by_cases hv : ver ≠ some Storage.STORAGE_VERSION
    · simp [hv]
    · simp [hv, hinv]

/-- Concrete instantiation of the C9 theorem. -/
theorem loadTasks_spec_witness :
    (some "2.0" ≠ some Storage.STORAGE_VERSION ∧
     Storage.loadTasks (some (.ok (Storage.Json.obj []))) (some "2.0") = []) ∧
    (Storage.isValidStorageData Storage.Json.null = false ∧
     Storage.loadTasks (some (.ok Storage.Json.null)) (some Storage.STORAGE_VERSION) = []) :=
  ⟨⟨by decide, loadTasks_spec.2.2.2.1 (Storage.Json.obj []) (some "2.0") (by decide)⟩,
   ⟨rfl, loadTasks_spec.2.2.2.2 Storage.Json.null (some Storage.STORAGE_VERSION) rfl⟩⟩

end TaskManager
